import Mathlib

/-!
Verification of the pending-question correlation engine of the
Human-in-the-Loop Slack MCP server (`src/slack-client.ts`).

The embedding mirrors the TypeScript source:

* `SlackMessageEvent`, `PendingResponse`, `MessageLogEntry` come from
  `src/types.ts` (optional fields become `Option String`).
* `handleSocketModeRequest` is the dispatcher of
  `HumanInSlack.handleSocketModeRequest`: it logs message events (keeping
  the last 50), skips bot-originated events, scans the pending map in
  insertion order, and resolves the first fully matching entry, waking
  the stored resolver at most once.
* `sysStep` models the lifecycle of one `ask` call interleaved with the
  dispatcher, following Node's run-to-completion event-loop semantics:
  the body of `handleSocketModeRequest` contains no `await`, and the
  continuation of the blocked `ask` (its cleanup of `pendingResponses`
  and `responseResolvers`) runs as a microtask, hence before the next
  inbound event callback can be dispatched.  Each `AskAction` is such an
  atomic unit.
-/

namespace AskOnSlackMCP

/-- `SlackMessageEvent` from `src/types.ts`: all fields but `type` are
optional in the source. -/
structure SlackMessageEvent where
  type : String
  channel : Option String
  user : Option String
  text : Option String
  ts : Option String
  thread_ts : Option String
  bot_id : Option String
deriving DecidableEq, Repr

/-- `PendingResponse` from `src/types.ts`. -/
structure PendingResponse where
  channel : String
  user : String
  threadTs : String
  response : Option String
  received : Bool
deriving DecidableEq, Repr

/-- `MessageLogEntry` from `src/types.ts`. -/
structure MessageLogEntry where
  timestamp : Nat
  channel : Option String
  user : Option String
  text : String
  threadTs : Option String
  botId : Option String
deriving DecidableEq, Repr

/-- JavaScript truthiness of an optional string field: `undefined` and the
empty string are falsy, used by the guard `!event.bot_id`. -/
def isTruthy : Option String → Bool
  | none => false
  | some s => s ≠ ""

/-- Mutable state of a `HumanInSlack` instance.  The two `Map`s are
association lists in insertion order (JS `Map` iteration order). -/
structure HumanState where
  pendingResponses : List (String × PendingResponse)
  resolvers : List String
  messageLog : List MessageLogEntry
  eventCount : Nat
deriving DecidableEq, Repr

/-- The log entry built at `slack-client.ts:204-211`:
`(event.text || '').slice(0, 50)` plus the raw optional fields. -/
def mkLogEntry (now : Nat) (e : SlackMessageEvent) : MessageLogEntry :=
  { timestamp := now
    channel := e.channel
    user := e.user
    text := (e.text.getD "").take 50
    threadTs := e.thread_ts
    botId := e.bot_id }

/-- Lines 203-218: push the entry for a `message` event, then `shift` the
oldest entry whenever the length exceeds 50. -/
def logMessageEvent (now : Nat) (e : SlackMessageEvent)
    (log : List MessageLogEntry) : List MessageLogEntry :=
  if e.type = "message" then
    let log' := log ++ [mkLogEntry now e]
    if log'.length > 50 then log'.tail else log'
  else log

/-- The guard at line 220: `event.type === 'message' && !event.bot_id`. -/
def isCandidate (e : SlackMessageEvent) : Bool :=
  e.type = "message" && !(isTruthy e.bot_id)

/-- The match condition of lines 237-239: same channel, same user, and the
reply's `thread_ts` strictly equal to the stored `threadTs` (an event
without `thread_ts` compares unequal to any stored string). -/
def matchesPending (e : SlackMessageEvent) (p : PendingResponse) : Bool :=
  e.channel = some p.channel ∧ e.user = some p.user ∧
    e.thread_ts = some p.threadTs

/-- The `for ... of this.pendingResponses.entries()` loop with `break` on
the first full match: returns the first matching question id, if any. -/
def findMatch (e : SlackMessageEvent) :
    List (String × PendingResponse) → Option String
  | [] => none
  | (qid, p) :: rest =>
    if matchesPending e p then some qid else findMatch e rest

/-- Lines 242-243: `questionData.response = text; questionData.received =
true` on the matched entry. -/
def recordResponse (qid : String) (text : String)
    (l : List (String × PendingResponse)) : List (String × PendingResponse) :=
  l.map fun qp =>
    if qp.1 = qid then (qp.1, { qp.2 with response := some text, received := true })
    else qp

/-- `Map.delete` on the pending map. -/
def eraseKey (qid : String) (l : List (String × PendingResponse)) :
    List (String × PendingResponse) :=
  l.filter fun qp => qp.1 ≠ qid

/-- `HumanInSlack.handleSocketModeRequest` (lines 195-260): bump the event
counter, log message events, and for a non-bot message scan the pending
map; on the first full match record the response and, when a resolver is
registered, invoke it exactly once and delete it.  Returns the new state
and the delivery `(questionId, text)` made to a waiting caller, if any. -/
def handleSocketModeRequest (now : Nat) (e : SlackMessageEvent)
    (st : HumanState) : HumanState × Option (String × String) :=
  let st1 : HumanState :=
    { st with
        eventCount := st.eventCount + 1
        messageLog := logMessageEvent now e st.messageLog }
  if isCandidate e then
    let text := e.text.getD ""
    match findMatch e st1.pendingResponses with
    | none => (st1, none)
    | some qid =>
      let st2 :=
        { st1 with pendingResponses := recordResponse qid text st1.pendingResponses }
      if qid ∈ st2.resolvers then
        ({ st2 with resolvers := st2.resolvers.erase qid }, some (qid, text))
      else (st2, none)
  else (st1, none)

/-- `getMessageLog` (lines 344-346) returns a copy of the log; in the pure
model the copy is the list itself. -/
def getMessageLog (st : HumanState) : List MessageLogEntry :=
  st.messageLog

/-- Line 269: `const questionId = \x7bq_$\x7bDate.now()\x7d\x7d` — derived from the
clock alone, with no counter. -/
def generateQuestionId (now : Nat) : String :=
  "q_" ++ toString now

/-- The fixed response window of line 303 (`const timeout = 60000`). -/
def askTimeoutMs : Nat := 60000

/-- The constructor arguments of `HumanInSlack` plus the question being
asked by the single tracked `ask` call. -/
structure Config where
  userId : String
  channelId : String
  question : String
deriving DecidableEq, Repr

/-- Where the tracked `ask` call stands in its control flow. -/
inductive AskPhase where
  /-- `ask` not yet entered. -/
  | notStarted
  /-- Past the readiness check and id generation; `chat.postMessage` is in
  flight, its result not yet processed (lines 271-283). -/
  | sending (qid : String)
  /-- Pending record inserted and resolver registered; suspended on
  `await responsePromise` (lines 300-320). -/
  | waiting (qid : String)
  /-- Promise resolved with the reply text and cleanup done (lines 320-327). -/
  | succeeded (qid : String) (answer : String)
  /-- Threw `Slack connection is not ready` (lines 263-266). -/
  | failedNotReady
  /-- `postMessage` returned `ok: false`; outer catch ran (lines 285-287, 337-341). -/
  | failedSend (qid : String)
  /-- Timer fired with the resolver still registered; rejection and cleanup
  done (lines 312-317, 329-335). -/
  | failedTimeout (qid : String)
deriving DecidableEq, Repr

/-- Whole-system state: the shared `HumanInSlack` maps, the tracked `ask`
call's phase, the outbound `postMessage` calls `(channel, text)` made so
far, and how many times a resolver woke the tracked caller. -/
structure SystemState where
  human : HumanState
  phase : AskPhase
  sentMessages : List (String × String)
  deliveryCount : Nat
deriving DecidableEq, Repr

/-- Atomic units of work on the event loop. -/
inductive AskAction where
  /-- The synchronous prefix of `ask`: readiness check, id generation and
  the initiation of `chat.postMessage` (lines 262-281). -/
  | start (ready : Bool) (now : Nat)
  /-- The `postMessage` result arrives and `ask` resumes synchronously
  through the record insertion and resolver registration, or throws on a
  failed send (lines 282-318). -/
  | sendDone (ok : Bool) (ts : String)
  /-- One inbound socket event: `handleSocketModeRequest` runs to
  completion, then the microtask of a caller it woke (the cleanup after
  `await responsePromise`) drains before anything else runs. -/
  | inbound (now : Nat) (e : SlackMessageEvent)
  /-- The 60s timer callback runs, followed by the microtask of the
  rejected caller's catch-block cleanup. -/
  | timerFires
deriving Repr

/-- Lines 262-281: fail fast with `NotReady` before any send or store
mutation; otherwise generate `q_$\x7bDate.now()\x7d` and post the mention-prefixed
question to the configured channel. -/
def stepStart (cfg : Config) (ready : Bool) (now : Nat) (s : SystemState) :
    SystemState :=
  match s.phase with
  | .notStarted =>
    if ready then
      { s with
          phase := .sending (generateQuestionId now)
          sentMessages :=
            s.sentMessages ++
              [(cfg.channelId, "<@" ++ cfg.userId ++ "> " ++ cfg.question)] }
    else { s with phase := .failedNotReady }
  | _ => s

/-- Lines 282-318 resp. 285-287/337-341: on success insert the pending
record keyed by the question id and register the resolver (one synchronous
block, no interleaving point between the two); on `ok: false` throw, the
outer catch deleting the (never inserted) entry. -/
def stepSendDone (cfg : Config) (ok : Bool) (ts : String) (s : SystemState) :
    SystemState :=
  match s.phase with
  | .sending qid =>
    if ok then
      let p : PendingResponse :=
        { channel := cfg.channelId, user := cfg.userId, threadTs := ts
          response := none, received := false }
      { s with
          phase := .waiting qid
          human :=
            { s.human with
                pendingResponses := s.human.pendingResponses ++ [(qid, p)]
                resolvers := s.human.resolvers ++ [qid] } }
    else
      { s with
          phase := .failedSend qid
          human :=
            { s.human with
                pendingResponses := eraseKey qid s.human.pendingResponses } }
  | _ => s

/-- One inbound event: run the dispatcher; if it woke the tracked caller,
that caller's continuation (lines 320-327: delete the pending entry,
return the text) runs as a microtask before the next event can be
dispatched. -/
def stepInbound (now : Nat) (e : SlackMessageEvent) (s : SystemState) :
    SystemState :=
  match handleSocketModeRequest now e s.human with
  | (st, none) => { s with human := st }
  | (st, some (q, text)) =>
    match s.phase with
    | .waiting qid =>
      if q = qid then
        { s with
            human := { st with pendingResponses := eraseKey qid st.pendingResponses }
            phase := .succeeded qid text
            deliveryCount := s.deliveryCount + 1 }
      else { s with human := st, deliveryCount := s.deliveryCount + 1 }
    | _ => { s with human := st, deliveryCount := s.deliveryCount + 1 }

/-- Lines 312-317 and the catch at 329-335: the timer callback is a no-op
when the resolver is already gone; otherwise it deletes the resolver and
rejects, and the caller's catch-cleanup deletes the pending entry. -/
def stepTimer (s : SystemState) : SystemState :=
  match s.phase with
  | .waiting qid =>
    if qid ∈ s.human.resolvers then
      { s with
          phase := .failedTimeout qid
          human :=
            { s.human with
                resolvers := s.human.resolvers.erase qid
                pendingResponses := eraseKey qid s.human.pendingResponses } }
    else s
  | _ => s

/-- Interpreter for one atomic action. -/
def sysStep (cfg : Config) (a : AskAction) (s : SystemState) : SystemState :=
  match a with
  | .start ready now => stepStart cfg ready now s
  | .sendDone ok ts => stepSendDone cfg ok ts s
  | .inbound now e => stepInbound now e s
  | .timerFires => stepTimer s

/-- Fresh `HumanInSlack` instance, no `ask` call yet. -/
def initSystem : SystemState :=
  { human := { pendingResponses := [], resolvers := [], messageLog := [], eventCount := 0 }
    phase := .notStarted
    sentMessages := []
    deliveryCount := 0 }

/-- Run a whole action trace from the initial state. -/
def runTrace (cfg : Config) (as : List AskAction) : SystemState :=
  as.foldl (fun s a => sysStep cfg a s) initSystem

/-- Reachable system states. -/
inductive Reach (cfg : Config) : SystemState → Prop where
  | init : Reach cfg initSystem
  | step (s : SystemState) (a : AskAction) : Reach cfg s → Reach cfg (sysStep cfg a s)

/-- The store/resolver/phase correspondence maintained by every action:
the pending entry and the resolver for the tracked question exist exactly
while `ask` is suspended waiting, and the caller has been woken exactly
once iff it has succeeded. -/
def SysInv (s : SystemState) : Prop :=
  match s.phase with
  | .waiting qid =>
    (∃ p, s.human.pendingResponses = [(qid, p)]) ∧
      s.human.resolvers = [qid] ∧ s.deliveryCount = 0
  | .succeeded _ _ =>
    s.human.pendingResponses = [] ∧ s.human.resolvers = [] ∧ s.deliveryCount = 1
  | _ =>
    s.human.pendingResponses = [] ∧ s.human.resolvers = [] ∧ s.deliveryCount = 0

/-! ### Dispatcher lemmas -/

theorem handle_no_pending_eq (now : Nat) (e : SlackMessageEvent) (st : HumanState)
    (h : st.pendingResponses = []) :
    handleSocketModeRequest now e st =
      ({ st with
          eventCount := st.eventCount + 1
          messageLog := logMessageEvent now e st.messageLog }, none) := by
  simp only [handleSocketModeRequest, h, findMatch]
  split <;> rfl

theorem handle_single_match (now : Nat) (e : SlackMessageEvent) (st : HumanState)
    (qid : String) (p : PendingResponse)
    (hp : st.pendingResponses = [(qid, p)]) (hr : st.resolvers = [qid])
    (hc : isCandidate e = true) (hm : matchesPending e p = true) :
    handleSocketModeRequest now e st =
      ({ st with
          eventCount := st.eventCount + 1
          messageLog := logMessageEvent now e st.messageLog
          pendingResponses :=
            [(qid, { p with response := some (e.text.getD ""), received := true })]
          resolvers := [] }, some (qid, e.text.getD "")) := by
  simp only [handleSocketModeRequest, hp, hr, hc, hm, findMatch, recordResponse,
    if_true, List.map_cons, List.map_nil, List.mem_singleton, List.erase_cons_head]

theorem handle_single_nomatch (now : Nat) (e : SlackMessageEvent) (st : HumanState)
    (qid : String) (p : PendingResponse)
    (hp : st.pendingResponses = [(qid, p)])
    (hnm : ¬(isCandidate e = true ∧ matchesPending e p = true)) :
    handleSocketModeRequest now e st =
      ({ st with
          eventCount := st.eventCount + 1
          messageLog := logMessageEvent now e st.messageLog }, none) := by
  by_cases hc : isCandidate e = true
  · have hm : matchesPending e p = false := by
      cases hmm : matchesPending e p
      · rfl
      · exact absurd ⟨hc, hmm⟩ hnm
    simp only [handleSocketModeRequest, hp, hc, hm, findMatch, if_true]
    simp
  · simp only [handleSocketModeRequest, hc]
    simp [hc]

theorem handle_bot_eq (now : Nat) (e : SlackMessageEvent) (st : HumanState)
    (hb : isTruthy e.bot_id = true) :
    handleSocketModeRequest now e st =
      ({ st with
          eventCount := st.eventCount + 1
          messageLog := logMessageEvent now e st.messageLog }, none) := by
  have hc : isCandidate e = false := by
    simp [isCandidate, hb]
  simp only [handleSocketModeRequest, hc]
  simp

theorem handle_messageLog (now : Nat) (e : SlackMessageEvent) (st : HumanState) :
    (handleSocketModeRequest now e st).1.messageLog =
      logMessageEvent now e st.messageLog := by
  simp only [handleSocketModeRequest]
  split
  · split
    · rfl
    · split <;> rfl
  · rfl

theorem logMessageEvent_length_le (now : Nat) (e : SlackMessageEvent)
    (log : List MessageLogEntry) (h : log.length ≤ 50) :
    (logMessageEvent now e log).length ≤ 50 := by
  simp only [logMessageEvent]
  split
  · split
    · rename_i hgt
      simp only [List.length_tail, List.length_append, List.length_singleton]
      omega
    · rename_i hle
      simp only [List.length_append, List.length_singleton] at hle ⊢
      omega
  · exact h

/-! ### The reachability invariant -/

theorem reach_inv (cfg : Config) (s : SystemState) (h : Reach cfg s) : SysInv s := by
  induction h with
  | init => simp [SysInv, initSystem]
  | step s a _ ih =>
    obtain ⟨hum, ph, sent, dc⟩ := s
    cases a with
    | start ready now =>
      cases ph with
      | notStarted =>
        simp only [SysInv] at ih
        cases ready <;>
          simp [sysStep, stepStart, SysInv, ih.1, ih.2.1, ih.2.2]
      | sending qid => exact ih
      | waiting qid => exact ih
      | succeeded qid ans => exact ih
      | failedNotReady => exact ih
      | failedSend qid => exact ih
      | failedTimeout qid => exact ih
    | sendDone ok ts =>
      cases ph with
      | sending qid =>
        simp only [SysInv] at ih
        cases ok <;>
          simp [sysStep, stepSendDone, SysInv, ih.1, ih.2.1, ih.2.2, eraseKey]
      | notStarted => exact ih
      | waiting qid => exact ih
      | succeeded qid ans => exact ih
      | failedNotReady => exact ih
      | failedSend qid => exact ih
      | failedTimeout qid => exact ih
    | inbound now e =>
      cases ph with
      | waiting qid =>
        simp only [SysInv] at ih
        obtain ⟨⟨p, hp⟩, hr, hdc⟩ := ih
        by_cases hcm : isCandidate e = true ∧ matchesPending e p = true
        · simp only [sysStep, stepInbound,
            handle_single_match now e hum qid p hp hr hcm.1 hcm.2]
          simp [SysInv, eraseKey, hdc]
        · simp only [sysStep, stepInbound,
            handle_single_nomatch now e hum qid p hp hcm]
          simp [SysInv, hp, hr, hdc]
      | notStarted =>
        simp only [SysInv] at ih
        simp only [sysStep, stepInbound, handle_no_pending_eq now e hum ih.1]
        simp [SysInv, ih.1, ih.2.1, ih.2.2]
      | sending qid =>
        simp only [SysInv] at ih
        simp only [sysStep, stepInbound, handle_no_pending_eq now e hum ih.1]
        simp [SysInv, ih.1, ih.2.1, ih.2.2]
      | succeeded qid ans =>
        simp only [SysInv] at ih
        simp only [sysStep, stepInbound, handle_no_pending_eq now e hum ih.1]
        simp [SysInv, ih.1, ih.2.1, ih.2.2]
      | failedNotReady =>
        simp only [SysInv] at ih
        simp only [sysStep, stepInbound, handle_no_pending_eq now e hum ih.1]
        simp [SysInv, ih.1, ih.2.1, ih.2.2]
      | failedSend qid =>
        simp only [SysInv] at ih
        simp only [sysStep, stepInbound, handle_no_pending_eq now e hum ih.1]
        simp [SysInv, ih.1, ih.2.1, ih.2.2]
      | failedTimeout qid =>
        simp only [SysInv] at ih
        simp only [sysStep, stepInbound, handle_no_pending_eq now e hum ih.1]
        simp [SysInv, ih.1, ih.2.1, ih.2.2]
    | timerFires =>
      cases ph with
      | waiting qid =>
        simp only [SysInv] at ih
        obtain ⟨⟨p, hp⟩, hr, hdc⟩ := ih
        simp [sysStep, stepTimer, SysInv, hp, hr, hdc, eraseKey, List.erase]
      | notStarted => exact ih
      | sending qid => exact ih
      | succeeded qid ans => exact ih
      | failedNotReady => exact ih
      | failedSend qid => exact ih
      | failedTimeout qid => exact ih

/-! ### Concrete fixtures -/

/-- A concrete constructor configuration: user `U1`, channel `C1`. -/
def cfgA : Config :=
  { userId := "U1", channelId := "C1", question := "What is the API key?" }

/-- A fully matching human threaded reply in `C1` from `U1` anchored at `T1`. -/
def evA : SlackMessageEvent :=
  { type := "message", channel := some "C1", user := some "U1"
    text := some "abc123", ts := some "1700.2", thread_ts := some "T1"
    bot_id := none }

/-- The same reply but carrying a bot id, i.e. self-originated. -/
def evBot : SlackMessageEvent :=
  { evA with bot_id := some "B9" }

/-- The same reply with the text field absent. -/
def evNoText : SlackMessageEvent :=
  { evA with text := none }

/-- A pending record awaiting `U1` in `C1` under anchor `T1`. -/
def pA : PendingResponse :=
  { channel := "C1", user := "U1", threadTs := "T1", response := none
    received := false }

/-- A `HumanInSlack` state with exactly the question `q_100` outstanding. -/
def stA : HumanState :=
  { pendingResponses := [("q_100", pA)], resolvers := ["q_100"]
    messageLog := [], eventCount := 0 }

/-- States reached by running a trace are reachable. -/
theorem reach_foldl (cfg : Config) (as : List AskAction) (s : SystemState)
    (h : Reach cfg s) :
    Reach cfg (as.foldl (fun s a => sysStep cfg a s) s) := by
  induction as generalizing s with
  | nil => exact h
  | cons a rest ih => exact ih _ (Reach.step s a h)

theorem reach_runTrace (cfg : Config) (as : List AskAction) :
    Reach cfg (runTrace cfg as) :=
  reach_foldl cfg as initSystem Reach.init

/-! ### Claims -/

/-- Successive `ask` calls modelled only by the clock values they observe:
line 269 derives the question id from `Date.now()` alone. -/
def askCallIds (clocks : List Nat) : List String :=
  clocks.map generateQuestionId

/-- Claim C2 (code bug): the question id is `q_` followed by `Date.now()`
with no monotonic counter, so two distinct `ask` calls that read the clock
in the same millisecond generate identical ids — the ids of two such calls
are not `Nodup`, contradicting process-lifetime uniqueness. -/
theorem questionId_collision :
    askCallIds [1735689600000, 1735689600000] =
      ["q_1735689600000", "q_1735689600000"] ∧
    ¬ (askCallIds [1735689600000, 1735689600000]).Nodup := by
  constructor
  · rfl
  · decide

/-- Claim C3: for a non-self-originated message event checked against the
single outstanding pending question, the dispatcher wakes the caller iff
channel, user and `thread_ts` all three agree with the stored record; the
match predicate of lines 237-239 is exactly that conjunction; changing any
one of the three fields alone defeats the match; and an event with no
`thread_ts` resolves nothing and leaves the record untouched. -/
theorem reply_match_iff (now : Nat) (e : SlackMessageEvent) (st : HumanState)
    (qid : String) (p : PendingResponse)
    (htype : e.type = "message") (hbot : isTruthy e.bot_id = false)
    (hp : st.pendingResponses = [(qid, p)]) (hr : st.resolvers = [qid]) :
    ((handleSocketModeRequest now e st).2.isSome ↔
      (e.channel = some p.channel ∧ e.user = some p.user ∧
        e.thread_ts = some p.threadTs)) ∧
    (matchesPending e p = true ↔
      (e.channel = some p.channel ∧ e.user = some p.user ∧
        e.thread_ts = some p.threadTs)) ∧
    (∀ c, c ≠ some p.channel → matchesPending { e with channel := c } p = false) ∧
    (∀ u, u ≠ some p.user → matchesPending { e with user := u } p = false) ∧
    (∀ t, t ≠ some p.threadTs → matchesPending { e with thread_ts := t } p = false) ∧
    (e.thread_ts = none →
      (handleSocketModeRequest now e st).2 = none ∧
      (handleSocketModeRequest now e st).1.pendingResponses = [(qid, p)]) := by
  have hc : isCandidate e = true := by
    simp [isCandidate, htype, hbot]
  have hiff : matchesPending e p = true ↔
      (e.channel = some p.channel ∧ e.user = some p.user ∧
        e.thread_ts = some p.threadTs) := by
    simp [matchesPending]
  refine ⟨?_, hiff, ?_, ?_, ?_, ?_⟩
  · by_cases hm : matchesPending e p = true
    · rw [handle_single_match now e st qid p hp hr hc hm]
      simpa using hiff.mp hm
    · rw [handle_single_nomatch now e st qid p hp (fun hand => hm hand.2)]
      simpa using fun hch hu => by
        intro hth
        exact hm (hiff.mpr ⟨hch, hu, hth⟩)
  · intro c hch
    simp [matchesPending, hch]
  · intro u hu
    simp [matchesPending, hu]
  · intro t ht
    simp [matchesPending, ht]
  · intro hnone
    have hm : ¬(isCandidate e = true ∧ matchesPending e p = true) := by
      rintro ⟨-, hmm⟩
      rw [hiff] at hmm
      rw [hnone] at hmm
      exact Option.noConfusion hmm.2.2
    rw [handle_single_nomatch now e st qid p hp hm]
    exact ⟨rfl, hp⟩

/-- Witness for C3 at the concrete reply `evA` against `stA`. -/
theorem reply_match_iff_witness :
    (((handleSocketModeRequest 5 evA stA).2.isSome ↔
        (evA.channel = some pA.channel ∧ evA.user = some pA.user ∧
          evA.thread_ts = some pA.threadTs))) ∧
    matchesPending { evA with thread_ts := none } pA = false ∧
    ((handleSocketModeRequest 5 evNoText stA).2 = none →
      (handleSocketModeRequest 5 evNoText stA).2 = none) :=
  ⟨(reply_match_iff 5 evA stA "q_100" pA rfl rfl rfl rfl).1,
   (reply_match_iff 5 evA stA "q_100" pA rfl rfl rfl rfl).2.2.2.2.1 none
     (by decide),
   fun h => h⟩

/-- Claim C8: an inbound event whose `bot_id` is a nonempty string (a
self-originated/bot message) never reaches the matching loop: no resolver
is woken and neither the pending map nor the resolver map changes, whatever
the event's other fields. -/
theorem bot_events_ignored (now : Nat) (e : SlackMessageEvent) (st : HumanState)
    (b : String) (hb : e.bot_id = some b) (hne : b ≠ "") :
    (handleSocketModeRequest now e st).2 = none ∧
    (handleSocketModeRequest now e st).1.pendingResponses = st.pendingResponses ∧
    (handleSocketModeRequest now e st).1.resolvers = st.resolvers := by
  have ht : isTruthy e.bot_id = true := by
    simp [isTruthy, hb, hne]
  rw [handle_bot_eq now e st ht]
  exact ⟨rfl, rfl, rfl⟩

/-- Witness for C8: `evBot` matches `stA` on channel, user and anchor but
resolves nothing. -/
theorem bot_events_ignored_witness :
    matchesPending evBot pA = true ∧
    (handleSocketModeRequest 5 evBot stA).2 = none ∧
    (handleSocketModeRequest 5 evBot stA).1.pendingResponses =
      stA.pendingResponses :=
  ⟨by decide,
   (bot_events_ignored 5 evBot stA "B9" rfl (by decide)).1,
   (bot_events_ignored 5 evBot stA "B9" rfl (by decide)).2.1⟩

/-- Claim C10: handling any event keeps the message log at 50 entries or
fewer; when the log is full and a message event arrives, the oldest entry
is evicted and the new one appended; and `getMessageLog` returns exactly
the internal log (the source returns a fresh copy `[...this.messageLog]`,
so callers never alias the internal array). -/
theorem messageLog_bounded (now : Nat) (e : SlackMessageEvent) (st : HumanState)
    (h : st.messageLog.length ≤ 50) :
    (handleSocketModeRequest now e st).1.messageLog.length ≤ 50 ∧
    (st.messageLog.length = 50 → e.type = "message" →
      (handleSocketModeRequest now e st).1.messageLog =
        st.messageLog.tail ++ [mkLogEntry now e]) ∧
    getMessageLog st = st.messageLog := by
  refine ⟨?_, ?_, rfl⟩
  · rw [handle_messageLog]
    exact logMessageEvent_length_le now e st.messageLog h
  · intro hfull htype
    rw [handle_messageLog]
    simp only [logMessageEvent, htype, if_true]
    have hgt : (st.messageLog ++ [mkLogEntry now e]).length > 50 := by
      simp [hfull]
    rw [if_pos hgt]
    cases hlog : st.messageLog with
    | nil => rw [hlog] at hfull; simp at hfull
    | cons a as => simp

/-- Witness for C10 at the empty log of `stA`. -/
theorem messageLog_bounded_witness :
    (handleSocketModeRequest 5 evA stA).1.messageLog.length ≤ 50 ∧
    getMessageLog stA = stA.messageLog :=
  ⟨(messageLog_bounded 5 evA stA (by decide)).1,
   (messageLog_bounded 5 evA stA (by decide)).2.2⟩

theorem sysInv_count_le_one (s : SystemState) (hinv : SysInv s) :
    s.deliveryCount ≤ 1 := by
  unfold SysInv at hinv
  split at hinv <;> obtain ⟨-, -, h3⟩ := hinv <;> omega

/-- Claim C1 (counterexample): `ask` sends before it inserts — the record
is keyed by the `ts` the send returns, so between the `postMessage` call
and the processing of its result the store is empty, and a fully matching
reply dispatched in that window resolves nothing; the question then times
out even though a qualifying reply arrived after the send. -/
theorem askRace_counterexample :
    (runTrace cfgA [.start true 100]).sentMessages =
      [("C1", "<@U1> What is the API key?")] ∧
    (runTrace cfgA [.start true 100]).human.pendingResponses = [] ∧
    isCandidate evA = true ∧
    matchesPending evA pA = true ∧
    (runTrace cfgA [.start true 100, .inbound 5 evA]).deliveryCount = 0 ∧
    (runTrace cfgA
        [.start true 100, .inbound 5 evA, .sendDone true "T1"]).human.pendingResponses =
      [("q_100", pA)] ∧
    (runTrace cfgA
        [.start true 100, .inbound 5 evA, .sendDone true "T1",
          .timerFires]).phase = .failedTimeout "q_100" := by
  decide

/-- Claim C1 (amended): while the send is in flight the store holds no
record and any inbound event — matching or not — is dropped without waking
anyone; the pending record is inserted only when the send's result is
processed, atomically with the resolver registration, before the caller
starts waiting. -/
theorem askInsert_after_send (cfg : Config) (s : SystemState) (qid : String)
    (h : Reach cfg s) (hph : s.phase = .sending qid) :
    s.human.pendingResponses = [] ∧
    (∀ now e,
      (sysStep cfg (.inbound now e) s).human.pendingResponses = [] ∧
      (sysStep cfg (.inbound now e) s).deliveryCount = s.deliveryCount ∧
      (sysStep cfg (.inbound now e) s).phase = .sending qid) ∧
    (∀ ts,
      (sysStep cfg (.sendDone true ts) s).phase = .waiting qid ∧
      (sysStep cfg (.sendDone true ts) s).human.pendingResponses =
        [(qid, { channel := cfg.channelId, user := cfg.userId, threadTs := ts
                 response := none, received := false })] ∧
      (sysStep cfg (.sendDone true ts) s).human.resolvers = [qid]) := by
  have hinv := reach_inv cfg s h
  obtain ⟨hum, ph, sent, dc⟩ := s
  cases hph
  obtain ⟨hp, hr, hdc⟩ := hinv
  replace hp : hum.pendingResponses = [] := hp
  replace hr : hum.resolvers = [] := hr
  refine ⟨hp, ?_, ?_⟩
  · intro now e
    simp only [sysStep, stepInbound, handle_no_pending_eq now e hum hp]
    simp [hp]
  · intro ts
    simp [sysStep, stepSendDone, hp, hr]

/-- Witness for the amended C1 on the concrete in-flight state after
`start`. -/
theorem askInsert_after_send_witness :
    (runTrace cfgA [.start true 100]).human.pendingResponses = [] ∧
    (sysStep cfgA (.inbound 5 evA) (runTrace cfgA [.start true 100])).deliveryCount =
      (runTrace cfgA [.start true 100]).deliveryCount ∧
    (sysStep cfgA (.sendDone true "T1") (runTrace cfgA [.start true 100])).phase =
      .waiting "q_100" :=
  ⟨(askInsert_after_send cfgA _ "q_100" (reach_runTrace cfgA _) (by decide)).1,
   ((askInsert_after_send cfgA _ "q_100" (reach_runTrace cfgA _) (by decide)).2.1 5 evA).2.1,
   ((askInsert_after_send cfgA _ "q_100" (reach_runTrace cfgA _) (by decide)).2.2 "T1").1⟩

/-- Claim C4: in every reachable state the tracked caller has been woken at
most once, and once its question is resolved the store holds no entry for
it, so any further inbound event — in particular a second event matching
the same question — wakes nobody, changes no result, and leaves the
(absent) record unwritten. -/
theorem resolve_at_most_once (cfg : Config) (s : SystemState) (h : Reach cfg s) :
    s.deliveryCount ≤ 1 ∧
    ∀ qid ans, s.phase = .succeeded qid ans →
      s.human.pendingResponses = [] ∧
      ∀ now e,
        (sysStep cfg (.inbound now e) s).phase = .succeeded qid ans ∧
        (sysStep cfg (.inbound now e) s).deliveryCount = s.deliveryCount ∧
        (sysStep cfg (.inbound now e) s).human.pendingResponses = [] := by
  have hinv := reach_inv cfg s h
  refine ⟨sysInv_count_le_one s hinv, ?_⟩
  intro qid ans hph
  obtain ⟨hum, ph, sent, dc⟩ := s
  cases hph
  obtain ⟨hp, hr, hdc⟩ := hinv
  replace hp : hum.pendingResponses = [] := hp
  refine ⟨hp, ?_⟩
  intro now e
  simp only [sysStep, stepInbound, handle_no_pending_eq now e hum hp]
  simp [hp]

/-- Witness for C4: after the reply `evA` resolves `q_100`, a second copy
of the same reply changes nothing. -/
theorem resolve_at_most_once_witness :
    (runTrace cfgA [.start true 100, .sendDone true "T1", .inbound 5 evA]).deliveryCount ≤ 1 ∧
    (sysStep cfgA (.inbound 6 evA)
        (runTrace cfgA [.start true 100, .sendDone true "T1", .inbound 5 evA])).phase =
      .succeeded "q_100" "abc123" ∧
    (sysStep cfgA (.inbound 6 evA)
        (runTrace cfgA
          [.start true 100, .sendDone true "T1", .inbound 5 evA])).human.pendingResponses =
      [] :=
  ⟨(resolve_at_most_once cfgA _ (reach_runTrace cfgA _)).1,
   (((resolve_at_most_once cfgA _ (reach_runTrace cfgA _)).2 "q_100" "abc123"
      (by decide)).2 6 evA).1,
   (((resolve_at_most_once cfgA _ (reach_runTrace cfgA _)).2 "q_100" "abc123"
      (by decide)).2 6 evA).2.2⟩

/-- Claim C5: once a question has timed out, its entry is gone and the
caller was never woken; any later inbound event leaves the phase, the wake
count and the (empty) store untouched — the text is not delivered to the
failed caller and no record field is mutated. -/
theorem late_reply_ignored (cfg : Config) (s : SystemState) (qid : String)
    (h : Reach cfg s) (hph : s.phase = .failedTimeout qid) :
    s.human.pendingResponses = [] ∧
    s.deliveryCount = 0 ∧
    ∀ now e,
      (sysStep cfg (.inbound now e) s).phase = .failedTimeout qid ∧
      (sysStep cfg (.inbound now e) s).deliveryCount = 0 ∧
      (sysStep cfg (.inbound now e) s).human.pendingResponses = [] := by
  have hinv := reach_inv cfg s h
  obtain ⟨hum, ph, sent, dc⟩ := s
  cases hph
  obtain ⟨hp, hr, hdc⟩ := hinv
  replace hp : hum.pendingResponses = [] := hp
  replace hdc : dc = 0 := hdc
  refine ⟨hp, hdc, ?_⟩
  intro now e
  simp only [sysStep, stepInbound, handle_no_pending_eq now e hum hp]
  simp [hp, hdc]

/-- Witness for C5: `evA` arriving after the timeout of `q_100` is
ignored. -/
theorem late_reply_ignored_witness :
    (runTrace cfgA [.start true 100, .sendDone true "T1", .timerFires]).human.pendingResponses =
      [] ∧
    (sysStep cfgA (.inbound 7 evA)
        (runTrace cfgA [.start true 100, .sendDone true "T1", .timerFires])).phase =
      .failedTimeout "q_100" ∧
    (sysStep cfgA (.inbound 7 evA)
        (runTrace cfgA [.start true 100, .sendDone true "T1", .timerFires])).deliveryCount =
      0 :=
  ⟨(late_reply_ignored cfgA _ "q_100" (reach_runTrace cfgA _) (by decide)).1,
   ((late_reply_ignored cfgA _ "q_100" (reach_runTrace cfgA _) (by decide)).2.2 7 evA).1,
   ((late_reply_ignored cfgA _ "q_100" (reach_runTrace cfgA _) (by decide)).2.2 7 evA).2.1⟩

/-- Claim C6: when the 60000 ms timer fires on a still-waiting question,
`ask` fails with `Timeout` and both the pending entry and the resolver are
removed — no store entry is leaked past the timeout exit path. -/
theorem timeout_cleanup (cfg : Config) (s : SystemState) (qid : String)
    (h : Reach cfg s) (hph : s.phase = .waiting qid) :
    (sysStep cfg .timerFires s).phase = .failedTimeout qid ∧
    (sysStep cfg .timerFires s).human.pendingResponses = [] ∧
    (sysStep cfg .timerFires s).human.resolvers = [] ∧
    askTimeoutMs = 60000 := by
  have hinv := reach_inv cfg s h
  obtain ⟨hum, ph, sent, dc⟩ := s
  cases hph
  obtain ⟨⟨p, hp⟩, hr, hdc⟩ := hinv
  replace hp : hum.pendingResponses = [(qid, p)] := hp
  replace hr : hum.resolvers = [qid] := hr
  simp [sysStep, stepTimer, hp, hr, eraseKey, List.erase, askTimeoutMs]

/-- Witness for C6 on the concrete waiting state for `q_100`. -/
theorem timeout_cleanup_witness :
    (sysStep cfgA .timerFires
        (runTrace cfgA [.start true 100, .sendDone true "T1"])).phase =
      .failedTimeout "q_100" ∧
    (sysStep cfgA .timerFires
        (runTrace cfgA [.start true 100, .sendDone true "T1"])).human.pendingResponses =
      [] :=
  ⟨(timeout_cleanup cfgA _ "q_100" (reach_runTrace cfgA _) (by decide)).1,
   (timeout_cleanup cfgA _ "q_100" (reach_runTrace cfgA _) (by decide)).2.1⟩

/-- Claim C7: when the handler reports not ready, `ask` throws before
generating an id, sending, or touching either map: the whole
`HumanInSlack` state and the outbound message list are unchanged. -/
theorem notReady_fails_fast (cfg : Config) (s : SystemState) (now : Nat)
    (hph : s.phase = .notStarted) :
    (sysStep cfg (.start false now) s).phase = .failedNotReady ∧
    (sysStep cfg (.start false now) s).human = s.human ∧
    (sysStep cfg (.start false now) s).sentMessages = s.sentMessages ∧
    (sysStep cfg (.start false now) s).human.pendingResponses =
      s.human.pendingResponses := by
  obtain ⟨hum, ph, sent, dc⟩ := s
  cases hph
  simp [sysStep, stepStart]

/-- Witness for C7 from the initial state. -/
theorem notReady_fails_fast_witness :
    (sysStep cfgA (.start false 100) initSystem).phase = .failedNotReady ∧
    (sysStep cfgA (.start false 100) initSystem).sentMessages =
      initSystem.sentMessages :=
  ⟨(notReady_fails_fast cfgA initSystem 100 rfl).1,
   (notReady_fails_fast cfgA initSystem 100 rfl).2.2.1⟩

/-- Claim C9: a matching non-bot message event whose text is absent or
empty still resolves the waiting question — `event.text || ''` coalesces
to the empty string, the caller is woken exactly this once, and `ask`
returns `""`. -/
theorem empty_text_resolves (cfg : Config) (s : SystemState) (qid : String)
    (p : PendingResponse) (now : Nat) (e : SlackMessageEvent)
    (h : Reach cfg s) (hph : s.phase = .waiting qid)
    (hp : s.human.pendingResponses = [(qid, p)])
    (htype : e.type = "message") (hbot : e.bot_id = none)
    (htext : e.text = none ∨ e.text = some "")
    (hm : matchesPending e p = true) :
    (sysStep cfg (.inbound now e) s).phase = .succeeded qid "" ∧
    (sysStep cfg (.inbound now e) s).deliveryCount = s.deliveryCount + 1 := by
  have hinv := reach_inv cfg s h
  have hc : isCandidate e = true := by
    simp [isCandidate, htype, hbot, isTruthy]
  have htxt : e.text.getD "" = "" := by
    rcases htext with h1 | h1 <;> simp [h1]
  obtain ⟨hum, ph, sent, dc⟩ := s
  cases hph
  obtain ⟨-, hr, -⟩ := hinv
  simp only [sysStep, stepInbound, handle_single_match now e hum qid p hp hr hc hm]
  simp [htxt]

/-- Witness for C9: the textless reply `evNoText` resolves `q_100` with the
empty string. -/
theorem empty_text_resolves_witness :
    (sysStep cfgA (.inbound 5 evNoText)
        (runTrace cfgA [.start true 100, .sendDone true "T1"])).phase =
      .succeeded "q_100" "" ∧
    (sysStep cfgA (.inbound 5 evNoText)
        (runTrace cfgA [.start true 100, .sendDone true "T1"])).deliveryCount =
      (runTrace cfgA [.start true 100, .sendDone true "T1"]).deliveryCount + 1 :=
  ⟨(empty_text_resolves cfgA _ "q_100" pA 5 evNoText (reach_runTrace cfgA _)
      (by decide) (by decide) rfl rfl (Or.inl rfl) (by decide)).1,
   (empty_text_resolves cfgA _ "q_100" pA 5 evNoText (reach_runTrace cfgA _)
      (by decide) (by decide) rfl rfl (Or.inl rfl) (by decide)).2⟩

end AskOnSlackMCP
